import Mathlib

/-!
Verification development for the Xray VLESS bootstrap script (src/app.js).

The script is embedded shallowly: pure computations (MD5-based access-path
derivation, download-URL selection, config generation) become Lean functions;
effectful routines (the ISP retry loop, redirect-following download, archive
extraction, signal-driven cleanup) become explicit-state functions over small
state types, with the I/O environment (HTTP responses, archive entries,
filesystem) passed in as parameters.  Machine integers are `Nat` with explicit
`% 2 ^ 32` where the source's 32-bit arithmetic overflows.
-/

/-! ## MD5 (crypto.createHash('md5') … digest('hex'))

The constructor derives the access path as the first 8 hex characters of the
MD5 of the UUID (src/app.js line 31).  We embed MD5 itself (RFC 1321): words
are `Nat` reduced mod `2 ^ 32`. -/

def w32 : Nat := 4294967296

def rotl32 (x n : Nat) : Nat :=
  ((x <<< n) % w32) ||| (x >>> (32 - n))

def md5K : List Nat :=
  [0xd76aa478, 0xe8c7b756, 0x242070db, 0xc1bdceee,
   0xf57c0faf, 0x4787c62a, 0xa8304613, 0xfd469501,
   0x698098d8, 0x8b44f7af, 0xffff5bb1, 0x895cd7be,
   0x6b901122, 0xfd987193, 0xa679438e, 0x49b40821,
   0xf61e2562, 0xc040b340, 0x265e5a51, 0xe9b6c7aa,
   0xd62f105d, 0x02441453, 0xd8a1e681, 0xe7d3fbc8,
   0x21e1cde6, 0xc33707d6, 0xf4d50d87, 0x455a14ed,
   0xa9e3e905, 0xfcefa3f8, 0x676f02d9, 0x8d2a4c8a,
   0xfffa3942, 0x8771f681, 0x6d9d6122, 0xfde5380c,
   0xa4beea44, 0x4bdecfa9, 0xf6bb4b60, 0xbebfbc70,
   0x289b7ec6, 0xeaa127fa, 0xd4ef3085, 0x04881d05,
   0xd9d4d039, 0xe6db99e5, 0x1fa27cf8, 0xc4ac5665,
   0xf4292244, 0x432aff97, 0xab9423a7, 0xfc93a039,
   0x655b59c3, 0x8f0ccc92, 0xffeff47d, 0x85845dd1,
   0x6fa87e4f, 0xfe2ce6e0, 0xa3014314, 0x4e0811a1,
   0xf7537e82, 0xbd3af235, 0x2ad7d2bb, 0xeb86d391]

def md5S : List Nat :=
  [7, 12, 17, 22, 7, 12, 17, 22, 7, 12, 17, 22, 7, 12, 17, 22,
   5, 9, 14, 20, 5, 9, 14, 20, 5, 9, 14, 20, 5, 9, 14, 20,
   4, 11, 16, 23, 4, 11, 16, 23, 4, 11, 16, 23, 4, 11, 16, 23,
   6, 10, 15, 21, 6, 10, 15, 21, 6, 10, 15, 21, 6, 10, 15, 21]

def md5F (i b c d : Nat) : Nat :=
  if i < 16 then (b &&& c) ||| ((b ^^^ 0xffffffff) &&& d)
  else if i < 32 then (d &&& b) ||| ((d ^^^ 0xffffffff) &&& c)
  else if i < 48 then b ^^^ c ^^^ d
  else c ^^^ (b ||| (d ^^^ 0xffffffff))

def md5G (i : Nat) : Nat :=
  if i < 16 then i
  else if i < 32 then (5 * i + 1) % 16
  else if i < 48 then (3 * i + 5) % 16
  else (7 * i) % 16

def leNum (bs : List Nat) : Nat :=
  bs.foldr (fun b acc => b % 256 + 256 * acc) 0

def chunkWords (chunk : List Nat) : List Nat :=
  (List.range 16).map (fun i => leNum ((chunk.drop (4 * i)).take 4))

def md5Round (m : List Nat) (st : Nat × Nat × Nat × Nat) (i : Nat) :
    Nat × Nat × Nat × Nat :=
  let f := (md5F i st.2.1 st.2.2.1 st.2.2.2 + st.1 + md5K.getD i 0 +
            m.getD (md5G i) 0) % w32
  (st.2.2.2, (st.2.1 + rotl32 f (md5S.getD i 0)) % w32, st.2.1, st.2.2.1)

def md5Chunk (st : Nat × Nat × Nat × Nat) (chunk : List Nat) :
    Nat × Nat × Nat × Nat :=
  let r := (List.range 64).foldl (md5Round (chunkWords chunk)) st
  ((st.1 + r.1) % w32, (st.2.1 + r.2.1) % w32,
   (st.2.2.1 + r.2.2.1) % w32, (st.2.2.2 + r.2.2.2) % w32)

def md5Pad (msg : List Nat) : List Nat :=
  msg ++ [128] ++ List.replicate ((119 - msg.length % 64) % 64) 0 ++
    (List.range 8).map (fun i => ((msg.length * 8) >>> (8 * i)) % 256)

def toChunksGo : Nat → List Nat → List (List Nat)
  | 0, _ => []
  | k + 1, l => if l.isEmpty then [] else l.take 64 :: toChunksGo k (l.drop 64)

def toChunks (l : List Nat) : List (List Nat) :=
  toChunksGo l.length l

def md5Digest (msg : List Nat) : Nat × Nat × Nat × Nat :=
  (toChunks (md5Pad msg)).foldl md5Chunk
    (0x67452301, 0xefcdab89, 0x98badcfe, 0x10325476)

def wordLEBytes (w : Nat) : List Nat :=
  [w % 256, (w >>> 8) % 256, (w >>> 16) % 256, (w >>> 24) % 256]

def hexDigits : List Char :=
  "0123456789abcdef".data

def hexChar (n : Nat) : Char :=
  hexDigits.getD n 'f'

def byteHex (b : Nat) : List Char :=
  [hexChar (b / 16 % 16), hexChar (b % 16)]

def hexOfBytes : List Nat → List Char
  | [] => []
  | b :: bs => byteHex b ++ hexOfBytes bs

def digestBytes (msg : List Nat) : List Nat :=
  wordLEBytes (md5Digest msg).1 ++ wordLEBytes (md5Digest msg).2.1 ++
    wordLEBytes (md5Digest msg).2.2.1 ++ wordLEBytes (md5Digest msg).2.2.2

/-- Lower-case hex digest, as produced by `digest('hex')`. -/
def md5Hex (msg : List Nat) : String :=
  String.mk (hexOfBytes (digestBytes msg))

/-- UTF-8 encoding of one code point, as `crypto.update` encodes strings. -/
def utf8Bytes (n : Nat) : List Nat :=
  if n < 0x80 then [n]
  else if n < 0x800 then [0xc0 ||| (n >>> 6), 0x80 ||| (n &&& 0x3f)]
  else if n < 0x10000 then
    [0xe0 ||| (n >>> 12), 0x80 ||| ((n >>> 6) &&& 0x3f), 0x80 ||| (n &&& 0x3f)]
  else
    [0xf0 ||| (n >>> 18), 0x80 ||| ((n >>> 12) &&& 0x3f),
     0x80 ||| ((n >>> 6) &&& 0x3f), 0x80 ||| (n &&& 0x3f)]

def strBytes (s : String) : List Nat :=
  s.data.foldr (fun c acc => utf8Bytes c.toNat ++ acc) []

/-! ## Access-path resolution (constructor, src/app.js lines 26-33) -/

/-- Embeds the JS test `WSPATH.startsWith('/')` for the one-character
argument `'/'`: true exactly when the first character is a slash. -/
def jsStartsWith (s : String) (c : Char) : Bool :=
  match s.data with
  | [] => false
  | a :: _ => a = c

/-- Embeds `crypto.createHash('md5').update(uuid).digest('hex').slice(0, 8)`
(src/app.js line 31). -/
def deriveHashTail (uuid : String) : String :=
  String.mk ((md5Hex (strBytes uuid)).data.take 8)

/-- Embeds the constructor's path selection (src/app.js lines 28-33): a
non-empty (truthy) `WSPATH` is used as-is when it starts with `'/'` and gets
`'/'` prepended otherwise; an empty `WSPATH` yields `'/' + hash`. -/
def resolvePath (wspath uuid : String) : String :=
  if wspath = "" then String.mk ('/' :: (deriveHashTail uuid).data)
  else if jsStartsWith wspath '/' then wspath
  else String.mk ('/' :: wspath.data)

/-! ## ISP lookup (getISP, src/app.js lines 67-112)

Each attempt wraps one `https.get` in a promise.  Exactly three things can
happen to that promise:
* the request errors or times out — the handlers at lines 102-103 reject it,
  the rejection is caught by the per-attempt try/catch (lines 106-110),
  which backs off 1 second and retries, or returns `'Unknown'` when the
  failing attempt was the last;
* the response ends and `source.parse(data)` returns — line 100 resolves the
  promise with the parsed label and `getISP` returns it;
* the response ends and `source.parse(data)` throws — the parse runs inside
  the response's `'end'` event listener (line 100), so the promise never
  settles and the throw escapes the listener as an uncaught exception: the
  try/catch never runs, there is no backoff, no further attempt, and no
  return value of any kind.

The environment is `fetch attempt idx`: the fate of the attempt-`attempt`
request against source `idx`.  `getISPGo fetch r a` runs the loop body for
attempts `a, …, a+r-1`; `IspResult.noRet` is the loop never entering (the JS
function returns `undefined`), `.value` is a normal return carrying the
result, the source indices queried in order, and the number of 1-second
backoff sleeps performed, and `.crash` is an escaped parse exception after
querying the recorded sources — the call never returns. -/

inductive FetchOutcome where
  | ok (label : String)
  | err
  | parseThrow
  deriving DecidableEq

inductive IspResult where
  | value (label : String) (idxs : List Nat) (waits : Nat)
  | crash (idxs : List Nat) (waits : Nat)
  | noRet
  deriving DecidableEq

/-- `apiSources.length` in src/app.js (two sources). -/
def sourceCount : Nat := 2

def getISPGo (fetch : Nat → Nat → FetchOutcome) : Nat → Nat → IspResult
  | 0, _ => .noRet
  | r + 1, attempt =>
    let idx := (attempt - 1) % sourceCount
    match fetch attempt idx with
    | .ok isp => .value isp [idx] 0
    | .parseThrow => .crash [idx] 0
    | .err =>
      match r with
      | 0 => .value "Unknown" [idx] 0
      | r' + 1 =>
        match getISPGo fetch (r' + 1) (attempt + 1) with
        | .value res idxs w => .value res (idx :: idxs) (w + 1)
        | .crash idxs w => .crash (idx :: idxs) (w + 1)
        | .noRet => .noRet

/-- Embeds `getISP(retries)` (src/app.js lines 67-112): the loop runs
attempts `1 … retries`. -/
def getISP (fetch : Nat → Nat → FetchOutcome) (retries : Nat) : IspResult :=
  getISPGo fetch retries 1

/-- An environment whose first attempt gets a response body that makes the
parser throw (a non-JSON body from the structured-data source); every other
attempt fails cleanly. -/
def fetchPT : Nat → Nat → FetchOutcome :=
  fun n _ => if n = 1 then .parseThrow else .err

/-! ## Download-URL selection (getXrayDownloadUrl, src/app.js lines 114-117) -/

/-- Embeds `getXrayDownloadUrl` with the detected architecture string as a
parameter: `os.arch() === 'arm64' ? "arm64-v8a" : "64"`. -/
def getXrayDownloadUrl (arch : String) : String :=
  "https://github.com/XTLS/Xray-core/releases/latest/download/Xray-linux-" ++
    (if arch = "arm64" then "arm64-v8a" else "64") ++ ".zip"

/-! ## Redirect-following download (_downloadFile, src/app.js lines 153-161)

The HTTP server is a function from URL to (status code, optional Location
header).  The source recurses on every `statusCode >= 300` response carrying
a Location header, with no depth bound; `downloadFileFuel` makes the number
of HTTP requests issued so far explicit: `fuel` requests are allowed, and
`none` means the chain was still redirecting when they ran out — so the real
(unbounded) recursion terminates on a given server/URL exactly when some
finite fuel yields `some`.  A `some url` result is the URL whose response
body was streamed to the destination file. -/

def downloadFileFuel (server : String → Nat × Option String) :
    Nat → String → Option String
  | 0, _ => none
  | fuel + 1, url =>
    match server url with
    | (status, some l) =>
      if 300 ≤ status then downloadFileFuel server fuel l else some url
    | (_, none) => some url

/-- A server that answers every URL with a redirect to the same URL. -/
def loopServer : String → Nat × Option String :=
  fun _ => (302, some "https://loop.example/a")

/-- A server with one redirect hop: `a` redirects to `b`, `b` serves content. -/
def staticServer : String → Nat × Option String :=
  fun u => if u = "a" then (301, some "b") else (200, none)

/-! ## Archive extraction (downloadAndExtract, src/app.js lines 119-151)

The archive is its ordered list of entry names.  The scan mirrors the yauzl
event loop: each non-matching entry calls `readEntry()` for the next one; on
the entry named `"xray"` the file is written, chmod-ed to `0o755`, and the
archive deleted, resolving `true`.  When the entries run out, yauzl emits
`end`, for which the source registers no handler — the promise never settles,
which the model renders as outcome `none` (`some b` = promise settled with
value `b`). -/

structure FS where
  zipFile : Bool
  xrayDir : Bool
  xrayMode : Option Nat

def xrayEntryName : String := "xray"

def extractScan (fs : FS) : List String → Option Bool × FS
  | [] => (none, fs)
  | e :: rest =>
    if e = xrayEntryName then
      (some true, { zipFile := false, xrayDir := true, xrayMode := some 0o755 })
    else extractScan fs rest

/-- Embeds `downloadAndExtract` after a successful download: `xray.zip` is on
disk, then the entry scan runs. -/
def downloadAndExtract (fs : FS) (entries : List String) : Option Bool × FS :=
  extractScan { fs with zipFile := true } entries

/-- Embeds the guard `if (await proxy.downloadAndExtract())` in `main`
(src/app.js line 218): config generation and engine start run only when the
provisioning promise settles with a truthy value; `none` (a promise that
never settles) suspends `main` forever, so they never run. -/
def mainAfterProvision : Option Bool → Bool
  | some true => true
  | _ => false

def fs0 : FS :=
  { zipFile := false, xrayDir := false, xrayMode := none }

/-! ## Config generation (generateConfig, src/app.js lines 163-181) -/

inductive JVal where
  | str (s : String)
  | num (n : Int)
  | arr (elems : List JVal)
  | obj (fields : List (String × JVal))

def jget (j : JVal) (k : String) : Option JVal :=
  match j with
  | .obj fields => List.lookup k fields
  | _ => none

/-- Embeds the object literal written by `generateConfig` (src/app.js lines
164-179), field for field. -/
def generateConfig (uuid path domain : String) (port : Int) : JVal :=
  .obj
    [("log", .obj [("loglevel", .str "error")]),
     ("inbounds", .arr
       [.obj
         [("port", .num port),
          ("listen", .str "0.0.0.0"),
          ("protocol", .str "vless"),
          ("settings", .obj
            [("clients", .arr [.obj [("id", .str uuid), ("level", .num 0)]]),
             ("decryption", .str "none")]),
          ("streamSettings", .obj
            [("network", .str "ws"),
             ("security", .str "none"),
             ("wsSettings", .obj
               [("path", .str path),
                ("headers", .obj [("Host", .str domain)])])])]]),
     ("outbounds", .arr
       [.obj [("protocol", .str "freedom"), ("settings", .obj [])]]),
     ("policy", .obj
       [("levels", .obj
         [("0", .obj [("bufferSize", .num 64), ("connIdle", .num 120)])])])]

/-! ## Cleanup and signal handling (src/app.js lines 43-51, 203-208)

`CState` carries whether an engine child process was started, which files
exist, and which files the OS would let `unlinkSync` delete (a `false` entry
makes the deletion attempt throw).  `tryDeleteFile` is the per-file body
`try { if (fs.existsSync(f)) fs.unlinkSync(f); } catch(e){}` — the catch
makes it total, so `cleanup` is a total function: it cannot raise. -/

structure CState where
  proc : Bool
  files : String → Bool
  deletable : String → Bool

def cleanupTargets : List String :=
  ["xray.zip", "config.json", "vless_xray_links.txt"]

def unlinkSyncE (st : CState) (f : String) : Except String CState :=
  if st.deletable f then
    .ok { st with files := fun g => if g = f then false else st.files g }
  else .error "unlink failed"

def tryDeleteFile (st : CState) (f : String) : CState :=
  if st.files f then
    match unlinkSyncE st f with
    | .ok st' => st'
    | .error _ => st
  else st

/-- Embeds `cleanup` (src/app.js lines 203-208): the returned Bool records
whether a SIGTERM was sent to the child (`if (this.process) … kill`). -/
def cleanup (st : CState) : CState × Bool :=
  (cleanupTargets.foldl tryDeleteFile st, st.proc)

/-- The events `setupSignalHandlers` registers `cleanupAndExit` for
(src/app.js lines 49-50).  No handler is registered for any other event; in
particular none for normal process exit. -/
def registeredSignals : List String := ["SIGINT", "SIGTERM"]

inductive Trigg where
  | signal (name : String)
  | normalExit

/-- Embeds the handler `cleanupAndExit` (src/app.js lines 44-48): one call to
`cleanup`, then `process.exit(0)`.  Result: state after cleanup, whether the
child was signalled, and the exit code. -/
def cleanupAndExit (st : CState) : CState × Bool × Nat :=
  ((cleanup st).1, (cleanup st).2, 0)

/-- What runs on a termination trigger: a signal runs the registered handler
when there is one (`none` = no handler installed, so no cleanup runs before
the process dies); normal host-process exit runs no hook at all, since
`setupSignalHandlers` installs none for it. -/
def handleTrigger (st : CState) : Trigg → Option (CState × Bool × Nat)
  | .signal s => if s ∈ registeredSignals then some (cleanupAndExit st) else none
  | .normalExit => none

def st0 : CState :=
  { proc := true, files := fun _ => true, deletable := fun _ => true }

def stW : CState :=
  { proc := false,
    files := fun f => decide (f = "config.json"),
    deletable := fun _ => true }

/-! ## Helper lemmas -/

lemma hexChar_mem (n : Nat) : hexChar n ∈ hexDigits := by
  unfold hexChar
  rcases Nat.lt_or_ge n hexDigits.length with h | h
  · rw [List.getD_eq_getElem _ _ h]
    exact List.getElem_mem h
  · rw [List.getD_eq_default _ _ h]
    decide

lemma hexOfBytes_mem (l : List Nat) : ∀ c ∈ hexOfBytes l, c ∈ hexDigits := by
  induction l with
  | nil => intro c hc; simp [hexOfBytes] at hc
  | cons b bs ih =>
    intro c hc
    simp only [hexOfBytes, byteHex, List.cons_append, List.nil_append,
      List.mem_cons] at hc
    rcases hc with h | h | h
    · exact h ▸ hexChar_mem _
    · exact h ▸ hexChar_mem _
    · exact ih c h

lemma hexOfBytes_length (l : List Nat) : (hexOfBytes l).length = 2 * l.length := by
  induction l with
  | nil => rfl
  | cons b bs ih =>
    simp only [hexOfBytes, byteHex, List.length_append, List.length_cons,
      List.length_nil, ih]
    omega

lemma digestBytes_length (m : List Nat) : (digestBytes m).length = 16 := by
  simp [digestBytes, wordLEBytes]

lemma md5Hex_data_length (m : List Nat) : (md5Hex m).data.length = 32 := by
  show (hexOfBytes (digestBytes m)).length = 32
  rw [hexOfBytes_length, digestBytes_length]

set_option maxRecDepth 100000 in
/-- Faithfulness check of the MD5 embedding against the RFC 1321 test suite. -/
lemma md5Hex_rfc_vector :
    md5Hex (strBytes "abc") = "900150983cd24fb0d6963f7d28e17f72" := by decide

/-! ## Claims C5 and C10: access-path shape -/

/-- Claim C5: with no fixed access path supplied (`WSPATH` empty), the derived
path is deterministic (deriving twice from the same identifier yields the same
path), starts with `'/'`, has length 9, and its remaining 8 characters are
lower-case hex digits of the MD5 of the identifier. -/
theorem derived_path_shape (uuid : String) :
    resolvePath "" uuid = resolvePath "" uuid ∧
    (resolvePath "" uuid).data.head? = some '/' ∧
    (resolvePath "" uuid).length = 9 ∧
    ((resolvePath "" uuid).data.tail.all fun c => decide (c ∈ hexDigits)) =
      true := by
  have h : resolvePath "" uuid = String.mk ('/' :: (deriveHashTail uuid).data) := by
    simp [resolvePath]
  refine ⟨rfl, ?_, ?_, ?_⟩
  · rw [h]; rfl
  · rw [h]
    show ('/' :: (deriveHashTail uuid).data).length = 9
    have h8 : (deriveHashTail uuid).data.length = 8 := by
      show ((md5Hex (strBytes uuid)).data.take 8).length = 8
      rw [List.length_take, md5Hex_data_length]
      omega
    simp [h8]
  · rw [h]
    show ((deriveHashTail uuid).data.all fun c => decide (c ∈ hexDigits)) = true
    rw [List.all_eq_true]
    intro c hc
    rw [decide_eq_true_eq]
    exact hexOfBytes_mem (digestBytes (strBytes uuid)) c
      (List.take_subset 8 _ hc)

/-- Witness instantiating the definitions of claim C5 at a concrete UUID. -/
theorem derived_path_shape_witness :
    resolvePath "" "de305d54-75b4-431b-adb2-eb6b9e546014" =
      resolvePath "" "de305d54-75b4-431b-adb2-eb6b9e546014" :=
  (derived_path_shape "de305d54-75b4-431b-adb2-eb6b9e546014").1

/-- Claim C10: a non-empty caller-supplied access path always yields a path
starting with `'/'`: if it already starts with `'/'` it is used unchanged,
otherwise `'/'` is prepended. -/
theorem supplied_path_slash (p u : String) (hp : p ≠ "") :
    (resolvePath p u).data.head? = some '/' ∧
    (jsStartsWith p '/' = true → resolvePath p u = p) ∧
    (jsStartsWith p '/' = false → resolvePath p u = String.mk ('/' :: p.data)) := by
  have hres : resolvePath p u =
      if jsStartsWith p '/' then p else String.mk ('/' :: p.data) := by
    simp [resolvePath, hp]
  cases hs : jsStartsWith p '/' with
  | false =>
    rw [hres, hs]
    exact ⟨rfl, fun hc => by simp at hc, fun _ => by simp⟩
  | true =>
    rw [hres, hs]
    refine ⟨?_, fun _ => by simp, fun hc => by simp at hc⟩
    cases hd : p.data with
    | nil => rw [jsStartsWith, hd] at hs; simp at hs
    | cons a l =>
      rw [jsStartsWith, hd] at hs
      simp only [decide_eq_true_eq] at hs
      simp [hd, hs]

/-- Witness for claim C10 at a concrete supplied path without a leading
slash. -/
theorem supplied_path_slash_witness :
    ("abc" : String) ≠ "" ∧
    (resolvePath "abc" "u").data.head? = some '/' ∧
    resolvePath "abc" "u" = String.mk ('/' :: ("abc" : String).data) :=
  ⟨by decide,
   (supplied_path_slash "abc" "u" (by decide)).1,
   (supplied_path_slash "abc" "u" (by decide)).2.2 rfl⟩

/-! ## Claim C2: ISP lookup retry loop -/

lemma getISPGo_crash (fetch : Nat → Nat → FetchOutcome) :
    ∀ r a k, a ≤ k → k < a + r →
      (∀ n, a ≤ n → n < k → fetch n ((n - 1) % sourceCount) = .err) →
      fetch k ((k - 1) % sourceCount) = .parseThrow →
      getISPGo fetch r a =
        .crash
          ((List.range' a (k + 1 - a)).map (fun n => (n - 1) % sourceCount))
          (k - a) := by
  intro r
  induction r with
  | zero => intro a k h1 h2 _ _; omega
  | succ r ih =>
    intro a k hak hkr hfail hthrow
    by_cases hk : k = a
    · subst hk
      have e : k + 1 - k = 1 := by omega
      rw [e, getISPGo.eq_def]
      simp [hthrow, List.range', Nat.sub_self]
    · have h0 : fetch a ((a - 1) % sourceCount) = .err :=
        hfail a (Nat.le_refl a) (by omega)
      cases r with
      | zero => omega
      | succ r' =>
        have hrec := ih (a + 1) k (by omega) (by omega)
          (fun n h1 h2 => hfail n (by omega) h2) hthrow
        have e1 : k + 1 - a = (k - a - 1 + 1) + 1 := by omega
        have e2 : k + 1 - (a + 1) = k - a - 1 + 1 := by omega
        rw [e2] at hrec
        have e3 : k - (a + 1) + 1 = k - a := by omega
        rw [e1, getISPGo.eq_def]
        simp only [h0, hrec, List.range', List.map_cons]
        rw [e3]

/-- Claim C2 (code defect): the per-attempt try/catch handles request errors
and timeouts (backoff, retry, `"Unknown"` on exhaustion), but a parse
failure escapes it — `source.parse` runs inside the response's `'end'`
listener, so when the first `k-1` attempts fail cleanly and attempt `k`'s
parse throws, the exception escapes as an uncaught exception: the lookup
performs no backoff after attempt `k`, makes no further attempts, and never
returns any label at all, `"Unknown"` included.  This violates the claim's
never-raises contract. -/
theorem getISP_parse_failure_escapes (fetch : Nat → Nat → FetchOutcome)
    (retries k : Nat) (hk1 : 1 ≤ k) (hkr : k ≤ retries)
    (hfail : ∀ n, 1 ≤ n → n < k → fetch n ((n - 1) % sourceCount) = .err)
    (hthrow : fetch k ((k - 1) % sourceCount) = .parseThrow) :
    getISP fetch retries =
      .crash ((List.range' 1 k).map (fun n => (n - 1) % sourceCount))
        (k - 1) ∧
    ∀ label idxs waits, getISP fetch retries ≠ .value label idxs waits := by
  have h := getISPGo_crash fetch retries 1 k hk1 (by omega) hfail hthrow
  have e : k + 1 - 1 = k := by omega
  rw [e] at h
  refine ⟨h, ?_⟩
  intro label idxs waits hv
  rw [show getISP fetch retries = getISPGo fetch retries 1 from rfl, h] at hv
  exact IspResult.noConfusion hv

/-- Witness for claim C2 at the failing input: the very first attempt's
parse throws, so the lookup crashes after querying only source 0, with no
backoff sleep and no further attempts. -/
theorem getISP_parse_failure_escapes_witness :
    getISP fetchPT 3 = IspResult.crash [0] 0 := by
  have h := (getISP_parse_failure_escapes fetchPT 3 1 (by omega) (by omega)
    (fun n h1 h2 => absurd h2 (by omega)) rfl).1
  rw [h]
  rfl

/-! ## Claim C8: download-URL selection -/

/-- Claim C8 counterexample: for an architecture outside the two supported
variants the code produces no error at all — it silently returns the same
asset URL as for `x64`. -/
theorem getXrayDownloadUrl_unknown_arch_defaults :
    getXrayDownloadUrl "s390x" =
      "https://github.com/XTLS/Xray-core/releases/latest/download/Xray-linux-64.zip" ∧
    getXrayDownloadUrl "s390x" = getXrayDownloadUrl "x64" := by
  constructor <;> rfl

/-- Claim C8 (amended): URL selection maps `arm64` and `x64` to two distinct
asset names, and every architecture other than `arm64` — supported or not —
silently receives the `x64` asset URL; no error is ever produced. -/
theorem getXrayDownloadUrl_mapping :
    getXrayDownloadUrl "arm64" =
      "https://github.com/XTLS/Xray-core/releases/latest/download/Xray-linux-arm64-v8a.zip" ∧
    getXrayDownloadUrl "x64" =
      "https://github.com/XTLS/Xray-core/releases/latest/download/Xray-linux-64.zip" ∧
    getXrayDownloadUrl "arm64" ≠ getXrayDownloadUrl "x64" ∧
    (∀ arch, arch ≠ "arm64" →
      getXrayDownloadUrl arch = getXrayDownloadUrl "x64") := by
  refine ⟨rfl, rfl, by decide, ?_⟩
  intro arch h
  rw [getXrayDownloadUrl, getXrayDownloadUrl, if_neg h, if_neg (by decide)]

/-- Witness for claim C8 at a concrete unsupported architecture. -/
theorem getXrayDownloadUrl_mapping_witness :
    getXrayDownloadUrl "mips" = getXrayDownloadUrl "x64" :=
  getXrayDownloadUrl_mapping.2.2.2 "mips" (by decide)

/-! ## Claim C7: redirect-following download -/

lemma loopServer_never_completes :
    ∀ fuel url, downloadFileFuel loopServer fuel url = none := by
  intro fuel
  induction fuel with
  | zero => intro url; rfl
  | succ fuel ih =>
    intro url
    simp [downloadFileFuel, loopServer, ih]

/-- Claim C7 counterexample: on a server that redirects every URL to itself,
the download never completes — no number of requests suffices, because the
source caps nothing: `_downloadFile` recurses on every `3xx` + `Location`
response unconditionally. -/
theorem downloadFile_redirect_loop_diverges :
    ¬ ∃ fuel result,
        downloadFileFuel loopServer fuel "https://loop.example/a" =
          some result := by
  rintro ⟨fuel, result, h⟩
  rw [loopServer_never_completes fuel _] at h
  exact Option.noConfusion h

/-- Claim C7 (amended): redirects are followed transparently — a `3xx`
response with a Location header makes the download restart at the new
location, one request consumed, and a non-redirect response completes the
download — but the recursion depth is unbounded, so an endless redirect
chain never terminates (see the counterexample). -/
theorem downloadFile_redirect_transparent
    (server : String → Nat × Option String) (url l : String)
    (status fuel : Nat) :
    (server url = (status, some l) → 300 ≤ status →
      downloadFileFuel server (fuel + 1) url = downloadFileFuel server fuel l) ∧
    (server url = (status, some l) → status < 300 →
      downloadFileFuel server (fuel + 1) url = some url) ∧
    (server url = (status, none) →
      downloadFileFuel server (fuel + 1) url = some url) := by
  refine ⟨fun h hs => ?_, fun h hs => ?_, fun h => ?_⟩
  · simp [downloadFileFuel, h, hs]
  · simp [downloadFileFuel, h, Nat.not_le.mpr hs]
  · simp [downloadFileFuel, h]

/-- Witness for claim C7: one concrete redirect hop is followed
transparently. -/
theorem downloadFile_redirect_transparent_witness :
    downloadFileFuel staticServer 2 "a" = downloadFileFuel staticServer 1 "b" :=
  (downloadFile_redirect_transparent staticServer "a" "b" 301 1).1 rfl
    (by omega)

/-! ## Claims C3 and C4: archive extraction -/

lemma extractScan_no_entry (fs : FS) :
    ∀ entries, xrayEntryName ∉ entries → extractScan fs entries = (none, fs) := by
  intro entries
  induction entries with
  | nil => intro _; rfl
  | cons e rest ih =>
    intro h
    have he : ¬(e = xrayEntryName) := fun hc =>
      h (hc ▸ List.mem_cons_self e rest)
    rw [extractScan, if_neg he]
    exact ih (fun hm => h (List.mem_cons_of_mem e hm))

lemma extractScan_found (fs : FS) :
    ∀ entries, xrayEntryName ∈ entries →
      extractScan fs entries =
        (some true,
          { zipFile := false, xrayDir := true, xrayMode := some 0o755 }) := by
  intro entries
  induction entries with
  | nil => intro h; simp at h
  | cons e rest ih =>
    intro h
    by_cases he : e = xrayEntryName
    · rw [extractScan, if_pos he]
    · rw [extractScan, if_neg he]
      exact ih (by
        rcases List.mem_cons.mp h with h1 | h1
        · exact absurd h1.symm he
        · exact h1)

/-- Claim C3 (code defect): when the archive has no entry named `"xray"`, the
extraction promise never settles — the scan reaches the archive's end, for
which no handler is registered — so provisioning does not report failure (it
reports nothing at all and the orchestrator suspends forever on the await).
No file is written at the target path and config generation / engine start
never run, but the claimed failure result is never produced. -/
theorem downloadAndExtract_missing_entry_hangs (fs : FS) (entries : List String)
    (h : xrayEntryName ∉ entries) :
    (downloadAndExtract fs entries).1 = none ∧
    (downloadAndExtract fs entries).2.xrayMode = fs.xrayMode ∧
    mainAfterProvision (downloadAndExtract fs entries).1 = false := by
  unfold downloadAndExtract
  rw [extractScan_no_entry _ entries h]
  exact ⟨rfl, rfl, rfl⟩

/-- Witness for claim C3 at a concrete entry list lacking `"xray"`. -/
theorem downloadAndExtract_missing_entry_hangs_witness :
    (downloadAndExtract fs0 ["geoip.dat", "geosite.dat"]).1 = none :=
  (downloadAndExtract_missing_entry_hangs fs0 ["geoip.dat", "geosite.dat"]
    (by decide)).1

/-- Claim C4: when the archive contains the expected entry `"xray"`,
provisioning resolves `true`, leaves the target file with mode `0o755`,
deletes the downloaded archive, and the orchestrator proceeds to config
generation and engine start. -/
theorem downloadAndExtract_success (fs : FS) (entries : List String)
    (h : xrayEntryName ∈ entries) :
    (downloadAndExtract fs entries).1 = some true ∧
    (downloadAndExtract fs entries).2.xrayMode = some 0o755 ∧
    (downloadAndExtract fs entries).2.zipFile = false ∧
    mainAfterProvision (downloadAndExtract fs entries).1 = true := by
  unfold downloadAndExtract
  rw [extractScan_found _ entries h]
  exact ⟨rfl, rfl, rfl, rfl⟩

/-- Witness for claim C4 at a concrete archive containing `"xray"`. -/
theorem downloadAndExtract_success_witness :
    (downloadAndExtract fs0 ["LICENSE", "xray", "geoip.dat"]).1 = some true ∧
    (downloadAndExtract fs0 ["LICENSE", "xray", "geoip.dat"]).2.zipFile =
      false :=
  ⟨(downloadAndExtract_success fs0 ["LICENSE", "xray", "geoip.dat"]
      (by decide)).1,
   (downloadAndExtract_success fs0 ["LICENSE", "xray", "geoip.dat"]
      (by decide)).2.2.1⟩

/-! ## Claim C6: generated configuration -/

/-- Claim C6: for every identity and host context, the generated
configuration contains exactly one inbound entry, whose port is the supplied
port, whose listener is bound to `0.0.0.0`, and whose settings carry a single
client credential equal to the supplied identity id. -/
theorem generateConfig_inbound_spec (uuid path domain : String) (port : Int) :
    ∃ inbound settings client,
      jget (generateConfig uuid path domain port) "inbounds" =
        some (.arr [inbound]) ∧
      jget inbound "port" = some (.num port) ∧
      jget inbound "listen" = some (.str "0.0.0.0") ∧
      jget inbound "settings" = some settings ∧
      jget settings "clients" = some (.arr [client]) ∧
      jget client "id" = some (.str uuid) :=
  ⟨_, _, _, rfl, rfl, rfl, rfl, rfl, rfl⟩

/-! ## Claim C9: best-effort cleanup -/

lemma tryDeleteFile_deletable (st : CState) (f : String) :
    (tryDeleteFile st f).deletable = st.deletable := by
  rw [tryDeleteFile, unlinkSyncE]
  by_cases h1 : st.files f = true <;> by_cases h2 : st.deletable f = true <;>
    simp [h1, h2]

lemma tryDeleteFile_files_ne (st : CState) (f g : String) (h : g ≠ f) :
    (tryDeleteFile st f).files g = st.files g := by
  rw [tryDeleteFile, unlinkSyncE]
  by_cases h1 : st.files f = true <;> by_cases h2 : st.deletable f = true <;>
    simp [h1, h2, h]

lemma tryDeleteFile_files_self (st : CState) (f : String)
    (h : st.deletable f = true) :
    (tryDeleteFile st f).files f = false := by
  rw [tryDeleteFile, unlinkSyncE]
  by_cases h1 : st.files f = true <;> simp [h1, h]

lemma tryDeleteFile_files_keep (st : CState) (f : String)
    (h : st.deletable f = false) :
    (tryDeleteFile st f).files f = st.files f := by
  rw [tryDeleteFile, unlinkSyncE]
  by_cases h1 : st.files f = true <;> simp [h1, h]

lemma foldl_tryDelete_files (l : List String) (st : CState) (f : String) :
    (l.foldl tryDeleteFile st).files f =
      if f ∈ l ∧ st.deletable f = true then false else st.files f := by
  induction l generalizing st with
  | nil => simp
  | cons g rest ih =>
    rw [List.foldl_cons, ih, tryDeleteFile_deletable]
    by_cases hf : f = g
    · subst hf
      by_cases hdel : st.deletable f = true
      · simp only [hdel, and_true, List.mem_cons, true_or, if_true]
        by_cases hm : f ∈ rest <;>
          simp [hm, tryDeleteFile_files_self st f hdel]
      · have hdel' : st.deletable f = false := by
          cases h : st.deletable f
          · rfl
          · exact absurd h hdel
        simp [hdel', tryDeleteFile_files_keep st f hdel']
    · rw [tryDeleteFile_files_ne st g f hf]
      simp [List.mem_cons, hf]

/-- Claim C9: cleanup is total — every deletion is wrapped in its own
try/catch behind an existence check, so no filesystem state makes it raise —
the child-process kill is performed exactly when a process was started (a
no-op otherwise), every target file whose deletion the OS permits ends up
deleted regardless of what happens to the other files, a failed deletion
leaves that file as it was without stopping the remaining deletions, and no
other file is touched. -/
theorem cleanup_best_effort (st : CState) :
    (cleanup st).2 = st.proc ∧
    (∀ f, f ∈ cleanupTargets → st.deletable f = true →
      (cleanup st).1.files f = false) ∧
    (∀ f, f ∈ cleanupTargets → st.deletable f = false →
      (cleanup st).1.files f = st.files f) ∧
    (∀ f, f ∉ cleanupTargets → (cleanup st).1.files f = st.files f) := by
  refine ⟨rfl, ?_, ?_, ?_⟩
  · intro f hf hdel
    show (cleanupTargets.foldl tryDeleteFile st).files f = false
    rw [foldl_tryDelete_files]
    simp [hf, hdel]
  · intro f hf hdel
    show (cleanupTargets.foldl tryDeleteFile st).files f = st.files f
    rw [foldl_tryDelete_files]
    simp [hdel]
  · intro f hf
    show (cleanupTargets.foldl tryDeleteFile st).files f = st.files f
    rw [foldl_tryDelete_files]
    simp [hf]

/-- Witness for claim C9: a state with no child process and only the config
file on disk cleans up with no kill and the file deleted. -/
theorem cleanup_best_effort_witness :
    (cleanup stW).2 = false ∧ (cleanup stW).1.files "config.json" = false :=
  ⟨(cleanup_best_effort stW).1,
   (cleanup_best_effort stW).2.1 "config.json" (by decide) rfl⟩

/-! ## Claim C1: cleanup on termination triggers -/

/-- Claim C1 counterexample: the supervisor installs handlers only for
`SIGINT` and `SIGTERM`; nothing runs on normal host-process exit, so on that
trigger cleanup runs zero times, not exactly once. -/
theorem cleanup_not_run_on_normal_exit :
    handleTrigger st0 Trigg.normalExit = none := rfl

/-- Claim C1 (amended): on an external `SIGINT` or `SIGTERM` the registered
handler runs exactly one `cleanup` (which sends the child — if started — a
graceful termination signal and deletes the three generated artifacts) and
then exits with code 0; on normal host-process exit no hook is installed and
no cleanup runs. -/
theorem signal_cleanup_runs_once (st : CState) :
    handleTrigger st (Trigg.signal "SIGINT") = some (cleanupAndExit st) ∧
    handleTrigger st (Trigg.signal "SIGTERM") = some (cleanupAndExit st) ∧
    handleTrigger st Trigg.normalExit = none := by
  refine ⟨?_, ?_, rfl⟩ <;> simp [handleTrigger, registeredSignals]
